import Mathlib

/-!
Shallow embedding of the GTK/libadwaita `winit` Linux backend
(`src/platform_impl/linux/{event_loop,window,output,input}.rs`).

Machine integers (`i32`) are modelled as `Int` with explicit wrapping
(`wrap32`) where the source multiplies. Rust panics (`expect`, `todo!`,
`unreachable!`) are modelled by the `PanicOr` result type, and fallible
functions by `Except`.
-/

namespace Winit

/-- Result of running a piece of Rust code that may panic. -/
inductive PanicOr (α : Type) where
  | panicked (msg : String)
  | ret (a : α)
  deriving DecidableEq, Repr

/-- Modelled from the spec: the cross-platform control-flow policy enum
{Poll, WaitUntil(deadline), Wait}; declared outside this backend, which
only stores and returns it. The deadline is an abstract instant. -/
inductive ControlFlow where
  | Poll
  | WaitUntil (deadline : Nat)
  | Wait
  deriving DecidableEq, Repr

/-- Modelled from the spec: the construction-time default value of the
control-flow cell ("always has a defined value (default on construction)").
The concrete variant is fixed by the cross-platform layer. -/
def ControlFlow.default : ControlFlow := ControlFlow.Wait

/-- Modelled from the spec: ternary theme preference used by
`WindowAttributes.preferred_theme` and `system_theme()`. -/
inductive Theme where
  | Light
  | Dark
  deriving DecidableEq, Repr

/-- The libadwaita four-way color scheme setting (global style manager). -/
inductive ColorScheme where
  | Default
  | PreferLight
  | ForceLight
  | PreferDark
  | ForceDark
  deriving DecidableEq, Repr

/-- dpi `Size`: physical or logical extent. The source only ever converts
with `to_logical::<i32>(1.0)`, i.e. at scale factor exactly 1, so the
numeric fields are kept as `Int`. -/
inductive Size where
  | Physical (width height : Int)
  | Logical (width height : Int)
  deriving DecidableEq, Repr

/-- `size.to_logical::<i32>(1.0)`: at scale factor 1 both variants map to
their own coordinates. -/
def Size.to_logical_scale1 : Size → Int × Int
  | Size.Physical w h => (w, h)
  | Size.Logical w h => (w, h)

/-- dpi `Position`: physical or logical point. -/
inductive Position where
  | Physical (x y : Int)
  | Logical (x y : Int)
  deriving DecidableEq, Repr

/-- dpi `PhysicalPosition<i32>`. -/
structure PhysicalPosition where
  x : Int
  y : Int
  deriving DecidableEq, Repr

/-- dpi `PhysicalSize<u32>`. -/
structure PhysicalSize where
  width : Nat
  height : Nat
  deriving DecidableEq, Repr

/-- Two-complement wrap of a mathematical integer into the `i32` range,
as Rust release-mode `i32` arithmetic does. -/
def wrap32 (n : Int) : Int := (n + 2 ^ 31) % 2 ^ 32 - 2 ^ 31

/-- Rust `i32` multiplication: mathematical product wrapped into range. -/
def i32mul (a b : Int) : Int := wrap32 (a * b)

/-- A native `gdk::Monitor` object: identity plus the data read by the
backend (`geometry()`, `scale_factor()`, `description()`). Geometry is in
application (logical) pixels per the GDK docs quoted in the source. -/
structure GdkMonitor where
  id : Nat
  geometry_x : Int
  geometry_y : Int
  geometry_width : Int
  geometry_height : Int
  scale_factor : Int
  description : Option String
  deriving DecidableEq, Repr

/-- An item of the display's monitor `ListModel`: either a monitor or some
other GObject (the `downcast` in `available_monitors` can fail). -/
inductive GObject where
  | monitor (m : GdkMonitor)
  | other (id : Nat)
  deriving DecidableEq, Repr

/-- Data exposed by a `gdk_wayland::WaylandDisplay`: `wl_display()` returns
an optional proxy whose id is a raw pointer (0 = null). -/
structure WaylandDisplayData where
  wl_display : Option Nat
  deriving DecidableEq, Repr

/-- Data exposed by a `gdk_x11::X11Display`: the raw `xdisplay` pointer
(0 = null) and the screen number of `display.screen()`. -/
structure X11DisplayData where
  xdisplay : Nat
  screen_number : Int
  deriving DecidableEq, Repr

/-- The concrete dynamic type behind an opaque `gdk::Display`: the GTK
runtime produces either a Wayland display, an X11 display, or (for the
purpose of the downcast semantics) something else. -/
inductive GdkDisplayBackend where
  | wayland (d : WaylandDisplayData)
  | x11 (d : X11DisplayData)
  | unknown
  deriving DecidableEq, Repr

/-- A native `gdk::Display`: its dynamic backend plus its monitor list
model (`display.monitors()` iterated as `Option<Object>` items). -/
structure GdkDisplay where
  backend : GdkDisplayBackend
  monitors : List (Option GObject)
  deriving DecidableEq, Repr

/-- `display.downcast_ref::<gdk_wayland::WaylandDisplay>()`. -/
def GdkDisplay.downcast_wayland (d : GdkDisplay) : Option WaylandDisplayData :=
  match d.backend with
  | GdkDisplayBackend.wayland wd => some wd
  | _ => none

/-- `display.downcast_ref::<gdk_x11::X11Display>()`. -/
def GdkDisplay.downcast_x11 (d : GdkDisplay) : Option X11DisplayData :=
  match d.backend with
  | GdkDisplayBackend.x11 xd => some xd
  | _ => none

/-- rwh_06 `HandleError` (the variants reachable from this backend). -/
inductive HandleError where
  | Unavailable
  deriving DecidableEq, Repr

/-- rwh_06 raw display handle variants produced by this backend: a Wayland
handle (non-null connection pointer enforced at construction) or an Xlib
handle (optional connection pointer plus screen number). -/
inductive RawDisplayHandle where
  | wayland (display_ptr : Nat)
  | xlib (display_ptr : Option Nat) (screen : Int)
  deriving DecidableEq, Repr

/-- `std::ptr::NonNull::new`: `some` of a non-zero pointer, else `none`. -/
def nonNullNew (p : Nat) : Option Nat := if p = 0 then none else some p

/-- Which downcast probes the resolver evaluates, in order. -/
inductive DowncastProbe where
  | waylandProbe
  | x11Probe
  deriving DecidableEq, Repr

/-- The Wayland branch of `display_handle_from_gdk`: `wl_display()` may be
absent (`HandleError::Unavailable`); the pointer is then checked non-null
by `NonNull::new(..).expect("wl_display should not be null")`. -/
def wayland_handle_branch (wd : WaylandDisplayData) :
    PanicOr (Except HandleError RawDisplayHandle) :=
  match wd.wl_display with
  | none => PanicOr.ret (Except.error HandleError.Unavailable)
  | some p =>
    if p = 0 then PanicOr.panicked "wl_display should not be null"
    else PanicOr.ret (Except.ok (RawDisplayHandle.wayland p))

/-- The X11 branch of `display_handle_from_gdk`: wraps `NonNull::new` of
the raw `xdisplay` pointer (no `expect`) plus the screen number. -/
def x11_handle_branch (xd : X11DisplayData) :
    PanicOr (Except HandleError RawDisplayHandle) :=
  PanicOr.ret (Except.ok
    (RawDisplayHandle.xlib (nonNullNew xd.xdisplay) xd.screen_number))

/-- `display_handle_from_gdk` (src/platform_impl/linux/output.rs), with
its evaluated downcast probes recorded in order: try the Wayland downcast
first and return from that branch on success; otherwise try the X11
downcast; if neither succeeds, hit the
`unreachable!("GdkDisplay should either be a WaylandDisplay or an X11Display")`. -/
def display_handle_from_gdk_traced (display : GdkDisplay) :
    PanicOr (Except HandleError RawDisplayHandle) × List DowncastProbe :=
  match display.downcast_wayland with
  | some wd => (wayland_handle_branch wd, [DowncastProbe.waylandProbe])
  | none =>
    match display.downcast_x11 with
    | some xd =>
      (x11_handle_branch xd, [DowncastProbe.waylandProbe, DowncastProbe.x11Probe])
    | none =>
      (PanicOr.panicked
        "`GdkDisplay` should either be a `WaylandDisplay` or an `X11Display`",
       [DowncastProbe.waylandProbe, DowncastProbe.x11Probe])

/-- `display_handle_from_gdk`, result only. -/
def display_handle_from_gdk (display : GdkDisplay) :
    PanicOr (Except HandleError RawDisplayHandle) :=
  (display_handle_from_gdk_traced display).1

/-- Property checker: a resolver result only ever succeeds with the
Wayland variant carrying a non-null pointer (panics and errors pass). -/
def waylandOkNonNull : PanicOr (Except HandleError RawDisplayHandle) → Bool
  | PanicOr.ret (Except.ok (RawDisplayHandle.wayland p)) => decide (p ≠ 0)
  | PanicOr.ret (Except.ok (RawDisplayHandle.xlib _ _)) => false
  | _ => true

/-- Platform `MonitorHandle` (output.rs): a non-owning wrapper over the
native monitor object. -/
structure MonitorHandle where
  inner : GdkMonitor
  deriving DecidableEq, Repr

/-- `MonitorHandle::name`: the native description, if any. -/
def MonitorHandle.name (m : MonitorHandle) : Option String :=
  m.inner.description

/-- `MonitorHandle::position` (output.rs): geometry is in application
(logical) pixels, so the physical position is geometry times the integer
scale factor, computed in `i32` arithmetic; always `Some`. -/
def MonitorHandle.position (m : MonitorHandle) : Option PhysicalPosition :=
  some { x := i32mul m.inner.geometry_x m.inner.scale_factor,
         y := i32mul m.inner.geometry_y m.inner.scale_factor }

/-- `obj.downcast::<gdk::Monitor>()` on a ListModel item. -/
def downcast_monitor : GObject → Option GdkMonitor
  | GObject.monitor m => some m
  | GObject.other _ => none

/-- The collection loop of `available_monitors` (event_loop.rs): each
ListModel item is unwrapped with
`expect("should not be mutating list during iteration")`, downcast with
`expect("object should be a `gdk::Monitor`")`, wrapped as a handle, and
the whole list is materialised into a Vec in one pass before return. -/
def collectMonitors : List (Option GObject) → PanicOr (List MonitorHandle)
  | [] => PanicOr.ret []
  | none :: _ => PanicOr.panicked "should not be mutating list during iteration"
  | some obj :: rest =>
    match downcast_monitor obj with
    | none => PanicOr.panicked "object should be a `gdk::Monitor`"
    | some m =>
      match collectMonitors rest with
      | PanicOr.panicked msg => PanicOr.panicked msg
      | PanicOr.ret ms => PanicOr.ret ({ inner := m } :: ms)

/-- A `glib::MainContext` reference (identity only). -/
structure GlibMainContext where
  id : Nat
  deriving DecidableEq, Repr

/-- The `ActiveEventLoop` struct (event_loop.rs): the main context, the
native display connection, and the two `Cell`s. -/
structure ActiveEventLoop where
  main_context : GlibMainContext
  display : GdkDisplay
  control_flow : ControlFlow
  exit : Option Int
  deriving DecidableEq, Repr

/-- `ActiveEventLoop::exiting`: a pure read of the exit cell. -/
def ActiveEventLoop.exiting (s : ActiveEventLoop) : Bool :=
  s.exit.isSome

/-- `ActiveEventLoop::available_monitors`: snapshot the native output list
of the loop's display in a single pass. -/
def available_monitors (s : ActiveEventLoop) : PanicOr (List MonitorHandle) :=
  collectMonitors s.display.monitors

/-- `WindowId::from_raw` on the native object's address. -/
structure WindowId where
  raw : Nat
  deriving DecidableEq, Repr

/-- A native `adw::Window` object as far as this backend reads it: its
address (identity) and per-window data. -/
structure AdwWindow where
  addr : Nat
  scale_factor : Int
  width : Int
  deriving DecidableEq, Repr

/-- The platform `Window` struct (window.rs): the native surface and the
window id fixed at construction. -/
structure Window where
  inner : AdwWindow
  window_id : WindowId
  deriving DecidableEq, Repr

/-- Modelled from the spec: `WindowLevel` of the cross-platform layer
(an attribute this backend never reads). -/
inductive WindowLevel where
  | AlwaysOnBottom
  | Normal
  | AlwaysOnTop
  deriving DecidableEq, Repr

/-- `VideoModeHandle` (output.rs). -/
structure VideoModeHandle where
  monitor : MonitorHandle
  size : PhysicalSize
  refresh_rate_millihertz : Option Nat
  deriving DecidableEq, Repr

/-- `Fullscreen` as matched in `create_window`: exclusive (with a video
mode) or borderless (with an optional target monitor). -/
inductive Fullscreen where
  | Exclusive (vm : VideoModeHandle)
  | Borderless (monitor : Option MonitorHandle)
  deriving DecidableEq, Repr

/-- Modelled from the spec plus its uses in `create_window`: the
cross-platform `WindowAttributes` DTO. The fields this backend translates
are title/resizable/maximized/visible/decorations/surface sizes/preferred
theme/fullscreen; the rest are listed in the source as unsupported and are
never read. -/
structure WindowAttributes where
  title : String
  resizable : Bool
  maximized : Bool
  visible : Bool
  decorations : Bool
  surface_size : Option Size
  min_surface_size : Option Size
  max_surface_size : Option Size
  surface_resize_increments : Option Size
  position : Option Position
  transparent : Bool
  blur : Bool
  window_level : WindowLevel
  active : Bool
  parent_window : Option Nat
  content_protected : Bool
  preferred_theme : Option Theme
  fullscreen : Option Fullscreen
  deriving DecidableEq, Repr

/-- The `adw::Window::builder()` call chain state in `create_window`:
every setter the source invokes, in source order. -/
structure AdwWindowBuilder where
  handle_menubar_accel : Bool
  resizable : Bool
  title : String
  maximized : Bool
  visible : Bool
  decorated : Bool
  default_width : Option Int
  default_height : Option Int
  width_request : Option Int
  height_request : Option Int
  deriving DecidableEq, Repr

/-- The native fullscreen call issued after `builder.build()`. -/
inductive FullscreenCall where
  | onMonitor (m : GdkMonitor)
  | plain
  deriving DecidableEq, Repr

/-- Everything `create_window` has done to native state by the time it
reaches its final expression. -/
structure CreateWindowTrace where
  builder : AdwWindowBuilder
  colorSchemeSet : Option ColorScheme
  fullscreenCall : Option FullscreenCall
  deriving DecidableEq, Repr

/-- `RequestError` (crate error layer): wraps a not-supported reason or an
OS error. -/
inductive RequestError where
  | NotSupported (reason : String)
  | Os (msg : String)
  deriving DecidableEq, Repr

/-- Outcome of `ActiveEventLoop::create_window`: the declared result type
(`Ok` boxed window / `Err` request error) plus the panic outcome the
source's final `todo!()` actually produces, carrying the trace of native
calls made before it. -/
inductive CreateWindowResult where
  | ok (w : Window)
  | err (e : RequestError)
  | todoPanic (trace : CreateWindowTrace)
  deriving DecidableEq, Repr

/-- `ActiveEventLoop::create_window` (event_loop.rs): translates the
attribute set through the builder (menubar accel off, resizable, title,
maximized, visible, decorated; optional default size and size request,
both converted to logical units at scale factor 1), optionally mutates the
global style manager for the preferred theme, builds, dispatches the
fullscreen request (exclusive silently ignored), and then reaches the
`todo!()` that ends the function. The unsupported attribute fields
(position, transparency, blur, max size, resize increments, window level,
activation, parent window, content protection) are never read. -/
def create_window (attrs : WindowAttributes) : CreateWindowResult :=
  let builder : AdwWindowBuilder :=
    { handle_menubar_accel := false,
      resizable := attrs.resizable,
      title := attrs.title,
      maximized := attrs.maximized,
      visible := attrs.visible,
      decorated := attrs.decorations,
      default_width := none,
      default_height := none,
      width_request := none,
      height_request := none }
  let builder :=
    match attrs.surface_size with
    | some sz =>
      let (w, h) := sz.to_logical_scale1
      { builder with default_width := some w, default_height := some h }
    | none => builder
  let builder :=
    match attrs.min_surface_size with
    | some sz =>
      let (w, h) := sz.to_logical_scale1
      { builder with width_request := some w, height_request := some h }
    | none => builder
  let colorScheme : Option ColorScheme :=
    match attrs.preferred_theme with
    | some Theme.Light => some ColorScheme.PreferLight
    | some Theme.Dark => some ColorScheme.PreferDark
    | none => none
  let fsCall : Option FullscreenCall :=
    match attrs.fullscreen with
    | some (Fullscreen.Exclusive _) => none
    | some (Fullscreen.Borderless (some monitor)) =>
      some (FullscreenCall.onMonitor monitor.inner)
    | some (Fullscreen.Borderless none) => some FullscreenCall.plain
    | none => none
  CreateWindowResult.todoPanic
    { builder := builder, colorSchemeSet := colorScheme, fullscreenCall := fsCall }

/-- Operations a caller can perform on an `ActiveEventLoop` between
construction and drop, as state transitions on the loop struct. Query
operations and the no-op `listen_device_events` leave the struct alone;
`create_window`'s side effects live in global toolkit state, not in the
loop struct. -/
inductive LoopOp where
  | setControlFlow (cf : ControlFlow)
  | exitOp
  | exitingQuery
  | controlFlowQuery
  | availableMonitorsQuery
  | primaryMonitorQuery
  | listenDeviceEvents
  | createWindowOp (attrs : WindowAttributes)
  deriving DecidableEq, Repr

/-- One operation's effect on the `ActiveEventLoop` struct:
`set_control_flow` writes the control-flow cell, `exit` writes
`Some(0)` into the exit cell, everything else leaves the struct unchanged. -/
def applyOp (s : ActiveEventLoop) : LoopOp → ActiveEventLoop
  | LoopOp.setControlFlow cf => { s with control_flow := cf }
  | LoopOp.exitOp => { s with exit := some 0 }
  | LoopOp.exitingQuery => s
  | LoopOp.controlFlowQuery => s
  | LoopOp.availableMonitorsQuery => s
  | LoopOp.primaryMonitorQuery => s
  | LoopOp.listenDeviceEvents => s
  | LoopOp.createWindowOp _ => s

/-- A sequence of operations applied in order. -/
def applyOps (s : ActiveEventLoop) (ops : List LoopOp) : ActiveEventLoop :=
  ops.foldl applyOp s

/-- `EventLoopError` (crate error layer). -/
inductive EventLoopError where
  | os (msg : String)
  deriving DecidableEq, Repr

/-- A `glib::MainLoop`. -/
structure GlibMainLoop where
  is_running : Bool
  deriving DecidableEq, Repr

/-- The `EventLoop` struct (event_loop.rs). -/
structure EventLoopState where
  main_loop : GlibMainLoop
  active_event_loop : ActiveEventLoop
  deriving DecidableEq, Repr

/-- The native environment `EventLoop::new` consults: whether
`adw::init()` succeeds and what `gdk::Display::default()` returns. -/
structure NativeEnv where
  adw_init_ok : Bool
  default_display : Option GdkDisplay
  deriving DecidableEq, Repr

/-- `EventLoop::new` (event_loop.rs): initialize libadwaita (OS error on
failure), acquire the default display (OS error if absent), then build the
main loop (not running) and the active loop with the default control flow
and an empty exit cell. -/
def EventLoop.new (env : NativeEnv) : Except EventLoopError EventLoopState :=
  match env.adw_init_ok with
  | false => Except.error (EventLoopError.os "failed to initialize `libadwaita`")
  | true =>
    match env.default_display with
    | none =>
      Except.error (EventLoopError.os "failed to get default `libadwaita` Wayland display")
    | some display =>
      Except.ok
        { main_loop := { is_running := false },
          active_event_loop :=
            { main_context := { id := 0 },
              display := display,
              control_flow := ControlFlow.default,
              exit := none } }

/-- `NotSupportedError::new(..).into()` as produced by the position
queries. -/
def notSupported (reason : String) : RequestError :=
  RequestError.NotSupported reason

/-- `Window::inner_position` (window.rs): always the not-supported error. -/
def Window.inner_position (_w : Window) : Except RequestError PhysicalPosition :=
  Except.error (notSupported "inner_position is not supported")

/-- `Window::outer_position` (window.rs): always the not-supported error. -/
def Window.outer_position (_w : Window) : Except RequestError PhysicalPosition :=
  Except.error (notSupported "outer_position is not supported")

/-- `Window::id`. -/
def Window.id (w : Window) : WindowId :=
  w.window_id

/-- The observable state `set_outer_position` could in principle touch: the
window it is called on and the loop that created it. -/
structure System where
  window : Window
  loop : ActiveEventLoop
  deriving DecidableEq, Repr

/-- `Window::set_outer_position` (window.rs): the body is empty
(`// unsupported`); it returns unit and changes nothing. -/
def Window.set_outer_position (_pos : Position) (sys : System) : Unit × System :=
  ((), sys)

/-- A concrete native monitor used to evaluate the model. -/
def demoMonitor : GdkMonitor :=
  { id := 0, geometry_x := 10, geometry_y := -3, geometry_width := 1920,
    geometry_height := 1080, scale_factor := 2, description := some "Demo" }

/-- A concrete Wayland-backed display with one monitor. -/
def demoWaylandDisplay : GdkDisplay :=
  { backend := GdkDisplayBackend.wayland { wl_display := some 1 },
    monitors := [some (GObject.monitor demoMonitor)] }

/-- A concrete X11-backed display. -/
def demoX11Display : GdkDisplay :=
  { backend := GdkDisplayBackend.x11 { xdisplay := 5, screen_number := 2 },
    monitors := [] }

/-- A display whose dynamic type is neither supported protocol. -/
def unknownDisplay : GdkDisplay :=
  { backend := GdkDisplayBackend.unknown, monitors := [] }

/-- A freshly constructed active loop over the demo display. -/
def demoLoop : ActiveEventLoop :=
  { main_context := { id := 0 }, display := demoWaylandDisplay,
    control_flow := ControlFlow.default, exit := none }

/-- A second loop sharing the demo display's monitor list but differing in
every other field. -/
def demoLoop2 : ActiveEventLoop :=
  { main_context := { id := 1 }, display := demoWaylandDisplay,
    control_flow := ControlFlow.Poll, exit := some 0 }

/-- A native environment in which construction succeeds. -/
def demoEnv : NativeEnv :=
  { adw_init_ok := true, default_display := some demoWaylandDisplay }

/-- The event loop `EventLoop::new demoEnv` produces. -/
def demoEventLoop : EventLoopState :=
  { main_loop := { is_running := false },
    active_event_loop :=
      { main_context := { id := 0 }, display := demoWaylandDisplay,
        control_flow := ControlFlow.default, exit := none } }

/-- An attribute set exercising every backend-unsupported field. -/
def positionAttrs : WindowAttributes :=
  { title := "w", resizable := true, maximized := false, visible := true,
    decorations := true, surface_size := none, min_surface_size := none,
    max_surface_size := some (Size.Logical 800 600),
    surface_resize_increments := some (Size.Physical 8 8),
    position := some (Position.Physical 100 200),
    transparent := true, blur := true,
    window_level := WindowLevel.AlwaysOnTop, active := false,
    parent_window := some 7, content_protected := false,
    preferred_theme := none, fullscreen := none }

/-- Reset every backend-unsupported attribute field to its neutral value,
leaving the supported fields alone. -/
def scrubbedAttrs (attrs : WindowAttributes) : WindowAttributes :=
  { attrs with
    position := none, transparent := false, blur := false,
    max_surface_size := none, surface_resize_increments := none,
    window_level := WindowLevel.Normal, active := true,
    parent_window := none, content_protected := false }

/-- Writing `Some(0)` into the exit cell is preserved by every single
loop operation. -/
theorem applyOp_exit_some (s : ActiveEventLoop) (op : LoopOp)
    (h : s.exit = some 0) : (applyOp s op).exit = some 0 := by
  cases op <;> simp [applyOp, h]

/-- Writing `Some(0)` into the exit cell is preserved by every operation
sequence. -/
theorem applyOps_exit_some (s : ActiveEventLoop) (ops : List LoopOp)
    (h : s.exit = some 0) : (applyOps s ops).exit = some 0 := by
  induction ops generalizing s with
  | nil => exact h
  | cons op rest ih =>
    have hstep : applyOps s (op :: rest) = applyOps (applyOp s op) rest := rfl
    rw [hstep]
    exact ih _ (applyOp_exit_some s op h)

/-- Any operation sequence containing an `exit()` call leaves the exit
cell at `Some(0)`. -/
theorem exit_mem_sets (s : ActiveEventLoop) (ops : List LoopOp)
    (h : LoopOp.exitOp ∈ ops) : (applyOps s ops).exit = some 0 := by
  induction ops generalizing s with
  | nil => cases h
  | cons op rest ih =>
    have hstep : applyOps s (op :: rest) = applyOps (applyOp s op) rest := rfl
    rw [hstep]
    rcases List.mem_cons.mp h with h1 | h2
    · subst h1
      exact applyOps_exit_some _ rest rfl
    · exact ih _ h2

/-- Every operation other than `set_control_flow` leaves the control-flow
cell unchanged. -/
theorem applyOp_control_flow_of_ne (s : ActiveEventLoop) (op : LoopOp)
    (h : ∀ cf : ControlFlow, op ≠ LoopOp.setControlFlow cf) :
    (applyOp s op).control_flow = s.control_flow := by
  cases op
  case setControlFlow cf => exact absurd rfl (h cf)
  all_goals rfl

/-- An operation sequence free of `set_control_flow` leaves the
control-flow cell unchanged. -/
theorem applyOps_control_flow_of_none (s : ActiveEventLoop) (ops : List LoopOp)
    (h : ∀ cf : ControlFlow, LoopOp.setControlFlow cf ∉ ops) :
    (applyOps s ops).control_flow = s.control_flow := by
  induction ops generalizing s with
  | nil => rfl
  | cons op rest ih =>
    have hop : ∀ cf : ControlFlow, op ≠ LoopOp.setControlFlow cf := by
      intro cf he
      apply h cf
      rw [← he]
      exact List.Mem.head _
    have hrest : ∀ cf : ControlFlow, LoopOp.setControlFlow cf ∉ rest := by
      intro cf he
      exact h cf (List.mem_cons_of_mem _ he)
    have hstep : applyOps s (op :: rest) = applyOps (applyOp s op) rest := rfl
    rw [hstep, ih _ hrest]
    exact applyOp_control_flow_of_ne s op hop

/-- A successful construction initialises the control-flow cell to the
default and the exit cell to empty. -/
theorem new_active_loop_fields (env : NativeEnv) (el : EventLoopState)
    (h : EventLoop.new env = Except.ok el) :
    el.active_event_loop.control_flow = ControlFlow.default ∧
    el.active_event_loop.exit = none := by
  rcases env with ⟨ai, dd⟩
  cases ai with
  | false => simp [EventLoop.new] at h
  | true =>
    cases dd with
    | none => simp [EventLoop.new] at h
    | some d =>
      simp [EventLoop.new] at h
      rw [← h]
      exact ⟨rfl, rfl⟩

/-- A successful monitor snapshot has exactly one handle per native list
item. -/
theorem collectMonitors_length (l : List (Option GObject))
    (ms : List MonitorHandle) (h : collectMonitors l = PanicOr.ret ms) :
    ms.length = l.length := by
  induction l generalizing ms with
  | nil =>
    simp [collectMonitors] at h
    simp [← h]
  | cons item rest ih =>
    cases item with
    | none => simp [collectMonitors] at h
    | some obj =>
      simp only [collectMonitors] at h
      cases hobj : downcast_monitor obj with
      | none => simp [hobj] at h
      | some m =>
        cases hrec : collectMonitors rest with
        | panicked msg => simp [hobj, hrec] at h
        | ret ms' =>
          simp [hobj, hrec] at h
          rw [← h]
          simp [ih ms' hrec]

/-- A successful monitor snapshot puts the i-th native monitor at the
i-th output slot (no duplication, no drop, no reordering). -/
theorem collectMonitors_get (l : List (Option GObject))
    (ms : List MonitorHandle) (i : Nat) (mh : MonitorHandle)
    (h : collectMonitors l = PanicOr.ret ms) (hg : ms[i]? = some mh) :
    l[i]? = some (some (GObject.monitor mh.inner)) := by
  induction l generalizing ms i with
  | nil =>
    simp [collectMonitors] at h
    subst h
    simp at hg
  | cons item rest ih =>
    cases item with
    | none => simp [collectMonitors] at h
    | some obj =>
      simp only [collectMonitors] at h
      cases hobj : downcast_monitor obj with
      | none => simp [hobj] at h
      | some m =>
        cases hrec : collectMonitors rest with
        | panicked msg => simp [hobj, hrec] at h
        | ret ms' =>
          simp [hobj, hrec] at h
          rw [← h] at hg
          cases obj with
          | monitor m2 =>
            simp [downcast_monitor] at hobj
            subst hobj
            cases i with
            | zero =>
              simp at hg
              simp [← hg]
            | succ j =>
              simp at hg
              simpa using ih ms' j hrec hg
          | other k => simp [downcast_monitor] at hobj

/-- Wrapping is the identity on values already in the i32 range. -/
theorem wrap32_eq_self (n : Int) (h1 : -(2 ^ 31) ≤ n) (h2 : n < 2 ^ 31) :
    wrap32 n = n := by
  unfold wrap32
  have e31 : (2 : Int) ^ 31 = 2147483648 := by norm_num
  have e32 : (2 : Int) ^ 32 = 4294967296 := by norm_num
  rw [e31, e32] at *
  omega

/-- Claim C1 (code_bug evidence): for every attribute set, the result of
`create_window` is identical whether or not the backend-unsupported fields
(initial position, transparency, blur, max size, resize increments, window
level, activation state, parent window) are set — they are silently
ignored — but at the concrete attribute set with all of them set the
function does not return Ok with a window: it reaches the final `todo!()`
and panics, having only performed the builder translation. -/
theorem create_window_reaches_todo :
    (∀ attrs : WindowAttributes,
      create_window attrs = create_window (scrubbedAttrs attrs)) ∧
    create_window positionAttrs =
      CreateWindowResult.todoPanic
        { builder :=
            { handle_menubar_accel := false, resizable := true, title := "w",
              maximized := false, visible := true, decorated := true,
              default_width := none, default_height := none,
              width_request := none, height_request := none },
          colorSchemeSet := none,
          fullscreenCall := none } := by
  constructor
  · intro attrs
    cases attrs
    rfl
  · rfl

/-- Claim C2: for every native display on which neither the Wayland nor
the X11 downcast succeeds, the resolver hits the internal-invariant
`unreachable!` — it panics with the invariant message and in particular
never returns a successful, protocol-less handle. -/
theorem neither_downcast_hard_fails (d : GdkDisplay)
    (hw : d.downcast_wayland = none) (hx : d.downcast_x11 = none) :
    display_handle_from_gdk d =
      PanicOr.panicked
        "`GdkDisplay` should either be a `WaylandDisplay` or an `X11Display`" := by
  unfold display_handle_from_gdk display_handle_from_gdk_traced
  rw [hw, hx]

/-- Witness for claim C2 at a concrete unknown-protocol display. -/
theorem neither_downcast_hard_fails_witness :
    display_handle_from_gdk unknownDisplay =
      PanicOr.panicked
        "`GdkDisplay` should either be a `WaylandDisplay` or an `X11Display`" :=
  neither_downcast_hard_fails unknownDisplay rfl rfl

/-- Claim C3: for every native display whose Wayland downcast succeeds,
the resolver's probe trace is exactly the single Wayland probe (the X11
downcast branch is never evaluated), and any successful result it produces
is the Wayland handle variant with a non-null connection pointer. -/
theorem wayland_skips_x11_probe (d : GdkDisplay) (wd : WaylandDisplayData)
    (h : d.downcast_wayland = some wd) :
    (display_handle_from_gdk_traced d).2 = [DowncastProbe.waylandProbe] ∧
    waylandOkNonNull (display_handle_from_gdk_traced d).1 = true := by
  have htr : display_handle_from_gdk_traced d =
      (wayland_handle_branch wd, [DowncastProbe.waylandProbe]) := by
    unfold display_handle_from_gdk_traced
    rw [h]
  rw [htr]
  refine ⟨rfl, ?_⟩
  unfold wayland_handle_branch
  cases hwl : wd.wl_display with
  | none => simp [waylandOkNonNull]
  | some p =>
    by_cases hp : p = 0
    · simp [hp, waylandOkNonNull]
    · simp [hp, waylandOkNonNull]

/-- Witness for claim C3 at a concrete Wayland display. -/
theorem wayland_skips_x11_probe_witness :
    (display_handle_from_gdk_traced demoWaylandDisplay).2 =
      [DowncastProbe.waylandProbe] ∧
    waylandOkNonNull (display_handle_from_gdk_traced demoWaylandDisplay).1 = true :=
  wayland_skips_x11_probe demoWaylandDisplay { wl_display := some 1 } rfl

/-- Claim C4: for every native display whose X11 downcast succeeds (hence
the Wayland one did not), the resolver returns Ok with an Xlib handle
whose screen field is exactly the display's reported screen number. -/
theorem x11_screen_number_exact (d : GdkDisplay) (xd : X11DisplayData)
    (h : d.downcast_x11 = some xd) :
    display_handle_from_gdk d =
      PanicOr.ret (Except.ok
        (RawDisplayHandle.xlib (nonNullNew xd.xdisplay) xd.screen_number)) := by
  rcases d with ⟨backend, monitors⟩
  cases backend with
  | wayland wd => simp [GdkDisplay.downcast_x11] at h
  | x11 xd' =>
    simp [GdkDisplay.downcast_x11] at h
    subst h
    rfl
  | unknown => simp [GdkDisplay.downcast_x11] at h

/-- Witness for claim C4 at a concrete X11 display with screen number 2. -/
theorem x11_screen_number_exact_witness :
    display_handle_from_gdk demoX11Display =
      PanicOr.ret (Except.ok (RawDisplayHandle.xlib (nonNullNew 5) 2)) :=
  x11_screen_number_exact demoX11Display { xdisplay := 5, screen_number := 2 } rfl

/-- Claim C5: after any operation sequence containing at least one
`exit()` call the exit cell holds code 0 and `exiting()` is true; every
further operation sequence leaves the cell at that originally recorded
code; every single `exit()` call writes code 0; and the `exiting()` query
does not modify the loop state at all. -/
theorem exit_monotonic_idempotent (s0 t : ActiveEventLoop)
    (ops more : List LoopOp) (h : LoopOp.exitOp ∈ ops) :
    (applyOps s0 ops).exit = some 0 ∧
    (applyOps s0 ops).exiting = true ∧
    (applyOps (applyOps s0 ops) more).exit = some 0 ∧
    (applyOps (applyOps s0 ops) more).exiting = true ∧
    (applyOp t LoopOp.exitOp).exit = some 0 ∧
    applyOp t LoopOp.exitingQuery = t := by
  have h1 : (applyOps s0 ops).exit = some 0 := exit_mem_sets s0 ops h
  have h2 : (applyOps (applyOps s0 ops) more).exit = some 0 :=
    applyOps_exit_some _ more h1
  refine ⟨h1, ?_, h2, ?_, rfl, rfl⟩
  · simp [ActiveEventLoop.exiting, h1]
  · simp [ActiveEventLoop.exiting, h2]

/-- Witness for claim C5: exit twice (with an interleaved query) on the
demo loop. -/
theorem exit_monotonic_idempotent_witness :
    (applyOps demoLoop [LoopOp.exitOp]).exit = some 0 ∧
    (applyOps demoLoop [LoopOp.exitOp]).exiting = true ∧
    (applyOps (applyOps demoLoop [LoopOp.exitOp])
      [LoopOp.exitOp, LoopOp.controlFlowQuery]).exit = some 0 ∧
    (applyOps (applyOps demoLoop [LoopOp.exitOp])
      [LoopOp.exitOp, LoopOp.controlFlowQuery]).exiting = true ∧
    (applyOp demoLoop LoopOp.exitOp).exit = some 0 ∧
    applyOp demoLoop LoopOp.exitingQuery = demoLoop :=
  exit_monotonic_idempotent demoLoop demoLoop [LoopOp.exitOp]
    [LoopOp.exitOp, LoopOp.controlFlowQuery] (List.Mem.head _)

/-- Claim C6: on every window of this backend, both position queries
return the not-supported error (and hence never an Ok coordinate). -/
theorem position_queries_not_supported (w : Window) :
    w.inner_position =
      Except.error (RequestError.NotSupported "inner_position is not supported") ∧
    w.outer_position =
      Except.error (RequestError.NotSupported "outer_position is not supported") :=
  ⟨rfl, rfl⟩

/-- Claim C7: two loops whose displays carry the same native output list
get the exact same monitor snapshot; a successful snapshot is a fully
materialised list with one handle per native item, the i-th handle
wrapping the i-th native monitor (no duplication, no drop, no
reordering). -/
theorem available_monitors_stable_snapshot (s s' : ActiveEventLoop)
    (ms : List MonitorHandle) (i : Nat) (mh : MonitorHandle)
    (hm : s.display.monitors = s'.display.monitors)
    (hret : available_monitors s = PanicOr.ret ms)
    (hi : ms[i]? = some mh) :
    available_monitors s' = PanicOr.ret ms ∧
    ms.length = s.display.monitors.length ∧
    s.display.monitors[i]? = some (some (GObject.monitor mh.inner)) := by
  refine ⟨?_, collectMonitors_length _ _ hret, collectMonitors_get _ _ _ _ hret hi⟩
  unfold available_monitors at hret ⊢
  rw [← hm]
  exact hret

/-- Witness for claim C7: two distinct loops over the demo display agree
on the snapshot of its single monitor. -/
theorem available_monitors_stable_snapshot_witness :
    available_monitors demoLoop2 = PanicOr.ret [{ inner := demoMonitor }] ∧
    ([({ inner := demoMonitor } : MonitorHandle)]).length =
      demoLoop.display.monitors.length ∧
    demoLoop.display.monitors[0]? = some (some (GObject.monitor demoMonitor)) :=
  available_monitors_stable_snapshot demoLoop demoLoop2
    [{ inner := demoMonitor }] 0 { inner := demoMonitor } rfl rfl rfl

/-- Claim C8: for every successfully constructed event loop, the
control-flow cell reads as the default variant after any operation
sequence that contains no `set_control_flow`, and immediately after
`set_control_flow cf` it reads back exactly cf. -/
theorem control_flow_default_until_set (env : NativeEnv) (el : EventLoopState)
    (ops : List LoopOp) (t : ActiveEventLoop) (cf : ControlFlow)
    (hnew : EventLoop.new env = Except.ok el)
    (hns : ∀ cf0 : ControlFlow, LoopOp.setControlFlow cf0 ∉ ops) :
    (applyOps el.active_event_loop ops).control_flow = ControlFlow.default ∧
    (applyOp t (LoopOp.setControlFlow cf)).control_flow = cf := by
  refine ⟨?_, rfl⟩
  rw [applyOps_control_flow_of_none _ _ hns]
  exact (new_active_loop_fields env el hnew).1

/-- Witness for claim C8: the demo environment constructs the demo loop,
an exit call leaves the control flow at the default, and a set call is
read back exactly. -/
theorem control_flow_default_until_set_witness :
    (applyOps demoEventLoop.active_event_loop [LoopOp.exitOp]).control_flow =
      ControlFlow.default ∧
    (applyOp demoLoop (LoopOp.setControlFlow (ControlFlow.WaitUntil 5))).control_flow =
      ControlFlow.WaitUntil 5 :=
  control_flow_default_until_set demoEnv demoEventLoop [LoopOp.exitOp] demoLoop
    (ControlFlow.WaitUntil 5) rfl (fun cf0 hmem => by simp at hmem)

/-- Claim C9: for every window, position and system state,
`set_outer_position` returns unit (no error channel at all) and is a
silent no-op: the window's id and native surface and the loop's
control-flow and exit cells are all unchanged. -/
theorem set_outer_position_noop (pos : Position) (sys : System) :
    Window.set_outer_position pos sys = ((), sys) ∧
    (Window.set_outer_position pos sys).2.window.window_id = sys.window.window_id ∧
    (Window.set_outer_position pos sys).2.window.inner = sys.window.inner ∧
    (Window.set_outer_position pos sys).2.loop.control_flow = sys.loop.control_flow ∧
    (Window.set_outer_position pos sys).2.loop.exit = sys.loop.exit :=
  ⟨rfl, rfl, rfl, rfl, rfl⟩

/-- Claim C10: every monitor position query returns Some, and whenever
the i32 products do not overflow the returned physical coordinates are
exactly the logical geometry origin times the integer scale factor. -/
theorem monitor_position_exact (m : MonitorHandle)
    (hx1 : -(2 ^ 31) ≤ m.inner.geometry_x * m.inner.scale_factor)
    (hx2 : m.inner.geometry_x * m.inner.scale_factor < 2 ^ 31)
    (hy1 : -(2 ^ 31) ≤ m.inner.geometry_y * m.inner.scale_factor)
    (hy2 : m.inner.geometry_y * m.inner.scale_factor < 2 ^ 31) :
    (MonitorHandle.position m).isSome = true ∧
    MonitorHandle.position m =
      some { x := m.inner.geometry_x * m.inner.scale_factor,
             y := m.inner.geometry_y * m.inner.scale_factor } := by
  refine ⟨rfl, ?_⟩
  unfold MonitorHandle.position i32mul
  rw [wrap32_eq_self _ hx1 hx2, wrap32_eq_self _ hy1 hy2]

/-- Witness for claim C10 at the demo monitor: origin (10, -3) at scale 2
yields physical (20, -6). -/
theorem monitor_position_exact_witness :
    (MonitorHandle.position { inner := demoMonitor }).isSome = true ∧
    MonitorHandle.position { inner := demoMonitor } = some { x := 20, y := -6 } := by
  have h := monitor_position_exact { inner := demoMonitor }
    (by decide) (by decide) (by decide) (by decide)
  exact ⟨h.1, by rw [h.2]; decide⟩

end Winit
